import Mathlib

/-!
Verification development for the revbot repository (src/code_splitter.py).

The Python program is shallowly embedded: pure fragments become Lean
functions; file I/O and network calls are modelled by passing their results
(file contents, parse outcomes, HTTP response shapes) as explicit inputs.
Floating-point embedding vectors are modelled over the rationals.

Python string primitives used by the source (str.strip, str.endswith,
os.path.basename, "".join, list slicing) are modelled below over
String.data (a list of characters), following Python semantics.
-/

/-- Characters removed by Python str.strip with no argument
(space, tab, newline, carriage return, vertical tab, form feed). -/
def isPySpace (c : Char) : Bool :=
  c = ' ' || c = '\t' || c = '\n' || c = '\r' || c = '\x0b' || c = '\x0c'

/-- Model of Python str.strip(): drop whitespace from both ends. -/
def pyStrip (s : String) : String :=
  ⟨((s.data.dropWhile isPySpace).reverse.dropWhile isPySpace).reverse⟩

/-- Model of Python "".join(lines): concatenation of the pieces. -/
def pyJoin (l : List String) : String :=
  ⟨(l.map String.data).flatten⟩

/-- Model of Python str.endswith(suffix). -/
def pyEndsWith (s suffix : String) : Bool :=
  suffix.data.isSuffixOf s.data

/-- Model of posix os.path.basename: the part of the path after the last
slash. -/
def pyBasename (p : String) : String :=
  ⟨(p.data.reverse.takeWhile (· ≠ '/')).reverse⟩

/-- Model of Python list slicing lst[a:b] for non-negative bounds
(the slice is empty when b is at most a, and is clipped at the end of the
list). -/
def pySlice {α : Type} (l : List α) (a b : Nat) : List α :=
  (l.drop a).take (b - a)

/-- Model of posix os.path.join for the two-argument calls in the source. -/
def ospath_join (d f : String) : String := d ++ "/" ++ f

/-- One chunk record as built by code_splitter.py: a dictionary with keys
file_path, type, name, lineno and content. -/
structure Chunk where
  file_path : String
  type : String
  name : String
  lineno : Nat
  content : String
deriving DecidableEq, Repr

instance : Inhabited Chunk :=
  ⟨{ file_path := "", type := "", name := "", lineno := 0, content := "" }⟩

/-- Kind of a node produced by ast.walk, as far as process_python_file
distinguishes them: ast.FunctionDef, ast.ClassDef, and everything else. -/
inductive NodeKind
  | functionDef
  | classDef
  | other
deriving DecidableEq, Repr

/-- One AST node as consumed by the source: its kind, its identifier, its
1-based start line (node.lineno) and, when the parser provides it, its
1-based inclusive end line (node.end_lineno). -/
structure ASTNode where
  kind : NodeKind
  name : String
  lineno : Nat
  end_lineno : Option Nat
deriving DecidableEq, Repr

/-- Embedding of get_chunk_content (code_splitter.py lines 9-26): when the
node has end-line information the slice source_lines[lineno-1:end_lineno]
is joined; otherwise the fallback slice source_lines[lineno-1:lineno+10]
is joined. -/
def get_chunk_content (source_lines : List String) (node : ASTNode) : String :=
  match node.end_lineno with
  | some end_line => pyJoin (pySlice source_lines (node.lineno - 1) end_line)
  | none => pyJoin (pySlice source_lines (node.lineno - 1) (node.lineno + 10))

/-- The module chunk appended by process_python_file (lines 41-49): present
exactly when the stripped source is non-empty, carrying the stripped whole
file content, the file base name and line 1. -/
def module_chunks_of (filepath source_code : String) : List Chunk :=
  if pyStrip source_code ≠ "" then
    [{ file_path := filepath, type := "module", name := pyBasename filepath,
       lineno := 1, content := pyStrip source_code }]
  else []

/-- The chunk appended for one walked AST node (lines 52-72): FunctionDef
and ClassDef nodes whose extracted content is non-empty (Python truthiness
of the unstripped string) yield a chunk with the stripped content; all
other nodes yield nothing. -/
def decl_chunk_of (filepath : String) (source_lines : List String)
    (node : ASTNode) : Option Chunk :=
  match node.kind with
  | NodeKind.functionDef =>
      let chunk_content := get_chunk_content source_lines node
      if chunk_content ≠ "" then
        some { file_path := filepath, type := "function", name := node.name,
               lineno := node.lineno, content := pyStrip chunk_content }
      else none
  | NodeKind.classDef =>
      let chunk_content := get_chunk_content source_lines node
      if chunk_content ≠ "" then
        some { file_path := filepath, type := "class", name := node.name,
               lineno := node.lineno, content := pyStrip chunk_content }
      else none
  | NodeKind.other => none

/-- Embedding of process_python_file (lines 28-78). The file content is
given as its keepends line list (source_lines; the raw text is their
concatenation, as splitlines(keepends=True) is a section of join).
parse_result models ast.parse: none models a SyntaxError, in which case the
except branch returns the chunks accumulated so far, which is the empty
list because parsing happens before any chunk is appended; some nodes
models the ast.walk node sequence of the parsed tree. -/
def process_python_file (filepath : String) (source_lines : List String)
    (parse_result : Option (List ASTNode)) : List Chunk :=
  match parse_result with
  | none => []
  | some tree_nodes =>
      module_chunks_of filepath (pyJoin source_lines) ++
        tree_nodes.filterMap (decl_chunk_of filepath source_lines)

/-- Embedding of process_other_file (lines 80-98): one chunk of type
"file" holding the stripped content when that is non-empty, nothing
otherwise. -/
def process_other_file (filepath content : String) : List Chunk :=
  if pyStrip content ≠ "" then
    [{ file_path := filepath, type := "file", name := pyBasename filepath,
       lineno := 1, content := pyStrip content }]
  else []

/-- The extension denylist tested at line 124 of the source. -/
def skippedExt (filename : String) : Bool :=
  pyEndsWith filename ".jpg" || pyEndsWith filename ".png" ||
    pyEndsWith filename ".bin" || pyEndsWith filename ".class" ||
    pyEndsWith filename ".txt"

/-- One file met by os.walk: its directory, its base name, its content as
a keepends line list, and (for structured files) the modelled ast.parse
outcome. -/
structure FileEntry where
  dirpath : String
  filename : String
  source_lines : List String
  parse_result : Option (List ASTNode)

/-- Embedding of recursively_chunk_directory (lines 101-129). The os.walk
traversal is modelled by the list of files it visits, in walk order; the
body dispatches each file exactly as lines 115-127 do. -/
def recursively_chunk_directory (walked_files : List FileEntry) : List Chunk :=
  walked_files.flatMap fun f =>
    if pyEndsWith f.filename ".py" then
      process_python_file (ospath_join f.dirpath f.filename) f.source_lines f.parse_result
    else if ¬ skippedExt f.filename then
      process_other_file (ospath_join f.dirpath f.filename) (pyJoin f.source_lines)
    else []

/-- Shape of one call to the embedding endpoint, as distinguished by
get_ollama_embedding: connection failure, non-2xx status (HTTPError), or a
JSON body that either has an "embedding" field (some vector) or lacks it
(none). -/
inductive EmbedResponse
  | connFail
  | httpError (status : Nat) (body : String)
  | ok (embedding : Option (List ℚ))
deriving DecidableEq

/-- Embedding of get_ollama_embedding (lines 131-160): the vector from the
response when present, and None in each of the three failure cases. -/
def get_ollama_embedding (resp : EmbedResponse) : Option (List ℚ) :=
  match resp with
  | EmbedResponse.ok (some v) => some v
  | EmbedResponse.ok none => none
  | EmbedResponse.connFail => none
  | EmbedResponse.httpError _ _ => none

/-- Embedding of the enrichment loop (lines 230-238): each chunk is paired
with the outcome of its embedding call; the Python test "if embedding:"
keeps a chunk exactly when the call returned a non-empty vector (None and
the empty list are both falsy). -/
def enrich_chunks (items : List (Chunk × EmbedResponse)) : List (Chunk × List ℚ) :=
  items.filterMap fun item =>
    match get_ollama_embedding item.2 with
    | some v => if v.isEmpty then none else some (item.1, v)
    | none => none

/-- Shape of one call to the chat endpoint, as distinguished by
get_ollama_llm_response: connection failure, HTTPError (carrying the
exception text interpolated into the returned message), or a JSON body
whose message.content field is present (some text) or missing/absent
(none; an empty string content is falsy in Python and is folded into the
present case below). -/
inductive ChatResult
  | connFail
  | httpError (err : String)
  | ok (message_content : Option String)
deriving DecidableEq

/-- Embedding of get_ollama_llm_response (lines 162-203). Its return type
is String in every branch: the content verbatim on success, and fixed
sentinel English strings on the three failure paths. -/
def get_ollama_llm_response (resp : ChatResult) : String :=
  match resp with
  | ChatResult.ok (some content) =>
      if content = "" then "No valid text response from Ollama LLM." else content
  | ChatResult.ok none => "No valid text response from Ollama LLM."
  | ChatResult.connFail => "Error: Could not connect to Ollama LLM."
  | ChatResult.httpError err => "Error from Ollama LLM API: " ++ err

/-- Dot product of two embedding vectors (sklearn cosine metric operates
coordinatewise; vectors are modelled over the rationals). -/
def dot (u v : List ℚ) : ℚ := (List.zipWith (· * ·) u v).sum

/-- Squared euclidean norm of an embedding vector. -/
def sqnorm (u : List ℚ) : ℚ := dot u u

/-- Rational sort key whose ascending order is the ascending order of
cosine distance to the query q. The cosine distance of u to q is
1 - (dot u q) / (sqrt (sqnorm u) * sqrt (sqnorm q)); for a fixed q with
positive norm this is ordered like -(dot u q) / sqrt (sqnorm u), and since
x * abs x is strictly monotone, like -((dot u q) * abs (dot u q)) / sqnorm u,
which is rational. The sign test below writes out the absolute value. -/
def distKey (q u : List ℚ) : ℚ :=
  if 0 ≤ dot u q then -(dot u q * dot u q / sqnorm u)
  else dot u q * dot u q / sqnorm u

/-- Direct division-free statement that the cosine distance of u to q is
at most the cosine distance of v to q, by case analysis on the signs of
the two dot products (cross-multiplied by the positive norms). -/
def cosineDistLE (q u v : List ℚ) : Prop :=
  if 0 ≤ dot u q then
    if 0 ≤ dot v q then dot v q * dot v q * sqnorm u ≤ dot u q * dot u q * sqnorm v
    else True
  else
    if 0 ≤ dot v q then False
    else dot u q * dot u q * sqnorm v ≤ dot v q * dot v q * sqnorm u

/-- Ranking relation of the index scan on (insertion position, embedding)
pairs: strictly smaller cosine distance first, ties broken by insertion
position. -/
def rankRel (q : List ℚ) (x y : Nat × List ℚ) : Prop :=
  distKey q x.2 < distKey q y.2 ∨ (distKey q x.2 = distKey q y.2 ∧ x.1 ≤ y.1)

instance rankRelDecidable (q : List ℚ) : DecidableRel (rankRel q) := fun x y =>
  inferInstanceAs (Decidable (distKey q x.2 < distKey q y.2 ∨
    (distKey q x.2 = distKey q y.2 ∧ x.1 ≤ y.1)))

/-- Model of the fitted NearestNeighbors index and its kneighbors call
(lines 250-293): an exact brute-force scan by cosine distance over the
embeddings matrix, returning the first min(k, n) (row index, embedding)
pairs in ascending distance order, ties in insertion order. The repo
clamps the request to min(k, n) before calling (lines 253 and 289); the
tie order is modelled from the spec (ties broken by original insertion
order), which the library leaves unspecified. -/
def kneighbors (entries : List (List ℚ)) (query_vector : List ℚ)
    (n_neighbors : Nat) : List (Nat × List ℚ) :=
  (List.insertionSort (rankRel query_vector) entries.enum).take
    (min n_neighbors entries.length)

/-- Outcome of one run of the retrieval part of the script (lines 242-333),
by which print-and-skip path it takes: no index was built (line 243),
the query embedding was None so no search and no generative call happen
(lines 282-283 and 333), the search returned nothing so the generative
call is skipped (line 333), or the LLM was driven and a final answer
string produced (lines 311-331). -/
inductive RagOutcome
  | emptyIndex
  | queryEmbeddingFailed
  | skippedNoRetrieved
  | answered (retrieved : List Chunk) (llm_answer : String)
deriving DecidableEq

/-- The retrieved chunk list built by lines 293-298: the kneighbors hits
mapped back through original_chunks by row index (indices returned by the
scan are always in range, so the getD default is never taken). -/
def retrievedOf (chunks_with_embeddings : List (Chunk × List ℚ))
    (query_embedding : List ℚ) (n_neighbors : Nat) : List Chunk :=
  (kneighbors (chunks_with_embeddings.map Prod.snd) query_embedding n_neighbors).map
    fun hit => (chunks_with_embeddings.getD hit.1 default).1

/-- Embedding of the retrieval orchestration in the main block
(lines 242-333). Inputs model the outside world: the enriched chunk list,
the outcome of embedding the fixed query text, and the shape of the chat
endpoint response. The prompt text assembled at lines 313-323 is consumed
only by the network call, which is modelled by chat_response, so it does
not appear in the state. -/
def rag_main (chunks_with_embeddings : List (Chunk × List ℚ))
    (query_embedding : Option (List ℚ)) (chat_response : ChatResult) : RagOutcome :=
  if chunks_with_embeddings.isEmpty then RagOutcome.emptyIndex
  else
    match query_embedding with
    | none => RagOutcome.queryEmbeddingFailed
    | some q =>
        let n_neighbors_to_use := min 10 chunks_with_embeddings.length
        let actual_n_neighbors := min n_neighbors_to_use chunks_with_embeddings.length
        let retrieved_chunks :=
          if actual_n_neighbors = 0 then []
          else retrievedOf chunks_with_embeddings q actual_n_neighbors
        if retrieved_chunks.isEmpty then RagOutcome.skippedNoRetrieved
        else RagOutcome.answered retrieved_chunks (get_ollama_llm_response chat_response)

/-- Concrete chunk used by witnesses. -/
def demo_chunk : Chunk :=
  { file_path := "codebase/app.py", type := "module", name := "app.py",
    lineno := 1, content := "x = 1" }

/-- Second concrete chunk used by witnesses. -/
def demo_chunk2 : Chunk :=
  { file_path := "codebase/src/module_a.py", type := "function",
    name := "create_user_profile", lineno := 10, content := "def create_user_profile" }

/-! Supporting lemmas about the index scan and the orchestration. -/

lemma rankRel_total (q : List ℚ) : ∀ x y, rankRel q x y ∨ rankRel q y x := by
  intro x y
  rcases lt_trichotomy (distKey q x.2) (distKey q y.2) with h | h | h
  · exact Or.inl (Or.inl h)
  · rcases Nat.le_total x.1 y.1 with hn | hn
    · exact Or.inl (Or.inr ⟨h, hn⟩)
    · exact Or.inr (Or.inr ⟨h.symm, hn⟩)
  · exact Or.inr (Or.inl h)

lemma rankRel_trans (q : List ℚ) :
    ∀ x y z, rankRel q x y → rankRel q y z → rankRel q x z := by
  intro x y z hxy hyz
  rcases hxy with h1 | ⟨h1, h1n⟩ <;> rcases hyz with h2 | ⟨h2, h2n⟩
  · exact Or.inl (h1.trans h2)
  · exact Or.inl (lt_of_lt_of_eq h1 h2)
  · exact Or.inl (lt_of_eq_of_lt h1 h2)
  · exact Or.inr ⟨h1.trans h2, h1n.trans h2n⟩

lemma snd_mem_of_mem_enum {α : Type} {l : List α} {p : Nat × α}
    (h : p ∈ l.enum) : p.2 ∈ l :=
  List.getElem?_mem (List.mem_enum_iff_getElem?.1 h)

lemma kneighbors_length (entries : List (List ℚ)) (q : List ℚ) (k : Nat) :
    (kneighbors entries q k).length = min k entries.length := by
  unfold kneighbors
  rw [List.length_take, List.length_insertionSort, List.enum_length]
  exact min_eq_left (min_le_right _ _)

lemma mem_entries_of_mem_kneighbors {entries : List (List ℚ)} {q : List ℚ}
    {k : Nat} {x : Nat × List ℚ} (h : x ∈ kneighbors entries q k) :
    x.2 ∈ entries := by
  have h1 : x ∈ List.insertionSort (rankRel q) entries.enum :=
    List.mem_of_mem_take h
  have h2 : x ∈ entries.enum := (List.perm_insertionSort _ _).mem_iff.1 h1
  exact snd_mem_of_mem_enum h2

lemma kneighbors_pairwise_rankRel (entries : List (List ℚ)) (q : List ℚ) (k : Nat) :
    (kneighbors entries q k).Pairwise (rankRel q) := by
  haveI : IsTotal (Nat × List ℚ) (rankRel q) := ⟨rankRel_total q⟩
  haveI : IsTrans (Nat × List ℚ) (rankRel q) := ⟨rankRel_trans q⟩
  exact List.Pairwise.sublist (List.take_sublist _ _)
    (List.sorted_insertionSort (rankRel q) entries.enum)

lemma kneighbors_pairwise_ne_fst (entries : List (List ℚ)) (q : List ℚ) (k : Nat) :
    (kneighbors entries q k).Pairwise (fun x y => x.1 ≠ y.1) := by
  have hsub : List.Sublist ((kneighbors entries q k).map Prod.fst)
      ((List.insertionSort (rankRel q) entries.enum).map Prod.fst) :=
    (List.take_sublist _ _).map _
  have hperm : List.Perm ((List.insertionSort (rankRel q) entries.enum).map Prod.fst)
      (entries.enum.map Prod.fst) :=
    (List.perm_insertionSort _ _).map _
  have henum : (entries.enum.map Prod.fst).Nodup := by
    rw [List.enum_map_fst]; exact List.nodup_range _
  have hnodup : ((kneighbors entries q k).map Prod.fst).Nodup :=
    List.Nodup.sublist hsub (hperm.symm.nodup henum)
  exact List.pairwise_map.1 hnodup

lemma distKey_le_iff {q u v : List ℚ} (hu : 0 < sqnorm u) (hv : 0 < sqnorm v) :
    distKey q u ≤ distKey q v ↔ cosineDistLE q u v := by
  unfold distKey cosineDistLE
  rcases le_or_lt 0 (dot u q) with ha | ha <;> rcases le_or_lt 0 (dot v q) with hb | hb
  · rw [if_pos ha, if_pos hb, if_pos ha, if_pos hb, neg_le_neg_iff,
      div_le_div_iff₀ hv hu]
  · rw [if_pos ha, if_neg (not_le.2 hb), if_pos ha, if_neg (not_le.2 hb)]
    constructor
    · intro _; trivial
    · intro _
      have h1 : 0 ≤ dot u q * dot u q / sqnorm u := by positivity
      have h2 : 0 < dot v q * dot v q / sqnorm v :=
        div_pos (by nlinarith) hv
      linarith
  · rw [if_neg (not_le.2 ha), if_pos hb, if_neg (not_le.2 ha), if_pos hb]
    constructor
    · intro h
      have h1 : 0 < dot u q * dot u q / sqnorm u := div_pos (by nlinarith) hu
      have h2 : 0 ≤ dot v q * dot v q / sqnorm v := by positivity
      exact absurd h (by linarith)
    · intro h; exact h.elim
  · rw [if_neg (not_le.2 ha), if_neg (not_le.2 hb), if_neg (not_le.2 ha),
      if_neg (not_le.2 hb), div_le_div_iff₀ hu hv]

lemma isEmpty_false_of_ne_nil {α : Type} {l : List α} (h : l ≠ []) :
    l.isEmpty = false := by
  cases l
  · exact absurd rfl h
  · rfl

lemma rag_main_some_eq {entries : List (Chunk × List ℚ)} (h : entries ≠ [])
    (q : List ℚ) (chat : ChatResult) :
    rag_main entries (some q) chat =
      RagOutcome.answered (retrievedOf entries q (min 10 entries.length))
        (get_ollama_llm_response chat) ∧
    retrievedOf entries q (min 10 entries.length) ≠ [] := by
  have hlen : 0 < entries.length := List.length_pos.2 h
  have hmin : min (min 10 entries.length) entries.length = min 10 entries.length :=
    min_eq_left (min_le_right _ _)
  have hk : 0 < min 10 entries.length := lt_min (by norm_num) hlen
  have hret : (retrievedOf entries q (min 10 entries.length)).length =
      min 10 entries.length := by
    unfold retrievedOf
    rw [List.length_map, kneighbors_length, List.length_map, hmin]
  have hne : retrievedOf entries q (min 10 entries.length) ≠ [] :=
    List.ne_nil_of_length_pos (lt_of_lt_of_eq hk hret.symm)
  refine ⟨?_, hne⟩
  unfold rag_main
  rw [isEmpty_false_of_ne_nil h]
  simp only [Bool.false_eq_true, if_false]
  rw [hmin, if_neg (Nat.pos_iff_ne_zero.1 hk), isEmpty_false_of_ne_nil hne]
  rfl

/-! Claim theorems. -/

/-- Claim C1, counterexample. The claim states that every structured-source
file whose content is non-empty after trimming yields at least one chunk.
The source text "x = (\n" is non-empty after trimming, but it is malformed
(CPython ast.parse raises SyntaxError on it, modelled by the parse outcome
none), and ast.parse at line 39 runs before the module chunk is appended at
line 43, so process_python_file returns zero chunks for it. -/
theorem claim1_counterexample :
    pyStrip (pyJoin ["x = (\n"]) ≠ "" ∧
    process_python_file "bad.py" ["x = (\n"] none = [] :=
  ⟨by decide, rfl⟩

/-- Claim C1, amended: for every structured-source file that parses
successfully and whose content is non-empty after trimming, processing
yields at least one chunk, and exactly one chunk of type module — emitted
before all declaration chunks — whose content is the whole file content
trimmed and whose name is the file base name. -/
theorem claim1_amended_module_chunk (filepath : String) (source_lines : List String)
    (tree_nodes : List ASTNode) (h : pyStrip (pyJoin source_lines) ≠ "") :
    ∃ decl_rest : List Chunk,
      process_python_file filepath source_lines (some tree_nodes) =
        { file_path := filepath, type := "module", name := pyBasename filepath,
          lineno := 1, content := pyStrip (pyJoin source_lines) } :: decl_rest ∧
      ∀ c ∈ decl_rest, c.type ≠ "module" := by
  refine ⟨tree_nodes.filterMap (decl_chunk_of filepath source_lines), ?_, ?_⟩
  · unfold process_python_file module_chunks_of
    rw [if_pos h]
    rfl
  · intro c hc
    obtain ⟨node, -, hnode⟩ := List.mem_filterMap.1 hc
    unfold decl_chunk_of at hnode
    cases hk : node.kind <;> simp only [hk] at hnode
    · split at hnode
      · obtain rfl := Option.some.inj hnode
        show ("function" : String) ≠ "module"
        decide
      · exact absurd hnode (by simp)
    · split at hnode
      · obtain rfl := Option.some.inj hnode
        show ("class" : String) ≠ "module"
        decide
      · exact absurd hnode (by simp)
    · exact absurd hnode (by simp)

/-- Claim C1, witness for the amended theorem at a concrete two-line
function file. -/
theorem claim1_witness :
    ∃ decl_rest : List Chunk,
      process_python_file "a.py" ["def f():\n", "    return 1\n"]
          (some [{ kind := NodeKind.functionDef, name := "f", lineno := 1,
                   end_lineno := some 2 }]) =
        { file_path := "a.py", type := "module", name := pyBasename "a.py",
          lineno := 1,
          content := pyStrip (pyJoin ["def f():\n", "    return 1\n"]) } :: decl_rest ∧
      ∀ c ∈ decl_rest, c.type ≠ "module" :=
  claim1_amended_module_chunk "a.py" ["def f():\n", "    return 1\n"]
    [{ kind := NodeKind.functionDef, name := "f", lineno := 1, end_lineno := some 2 }]
    (by decide)

/-- Claim C6: a structured-source file whose text fails to parse (modelled
by parse outcome none) contributes zero chunks, and the directory walk
continues exactly as if the file were absent — the failure never aborts
the walk. -/
theorem claim6_parse_failure_skipped (walked_before walked_after : List FileEntry)
    (bad : FileEntry) (hpy : pyEndsWith bad.filename ".py" = true)
    (hparse : bad.parse_result = none) :
    process_python_file (ospath_join bad.dirpath bad.filename) bad.source_lines
        bad.parse_result = [] ∧
    recursively_chunk_directory (walked_before ++ bad :: walked_after) =
      recursively_chunk_directory (walked_before ++ walked_after) := by
  have hzero : process_python_file (ospath_join bad.dirpath bad.filename)
      bad.source_lines bad.parse_result = [] := by rw [hparse]; rfl
  refine ⟨hzero, ?_⟩
  unfold recursively_chunk_directory
  simp only [List.flatMap_append, List.flatMap_cons, hpy, if_true, hzero,
    List.nil_append]

/-- Claim C6, witness: a malformed one-line Python file alone in the walk
produces the same (empty) chunk set as an empty walk. -/
theorem claim6_witness :
    process_python_file (ospath_join "codebase" "broken.py") ["x = (\n"] none = [] ∧
    recursively_chunk_directory
        [{ dirpath := "codebase", filename := "broken.py",
           source_lines := ["x = (\n"], parse_result := none }] =
      recursively_chunk_directory [] :=
  claim6_parse_failure_skipped [] []
    { dirpath := "codebase", filename := "broken.py",
      source_lines := ["x = (\n"], parse_result := none }
    (by decide) rfl

/-- Claim C8: for a declaration node that lacks end-line information
(end_lineno is none, the fallback at line 21 of the source), the chunk text
is the join of the declaration start line and the following 10 lines —
the Python slice source_lines[lineno-1:lineno+10], 11 lines — before any
trimming. The hypothesis 1 ≤ lineno reflects that CPython AST line numbers
are 1-based. -/
theorem claim8_fallback_span (source_lines : List String) (node : ASTNode)
    (hend : node.end_lineno = none) (hline : 1 ≤ node.lineno) :
    get_chunk_content source_lines node =
      pyJoin ((source_lines.drop (node.lineno - 1)).take 11) := by
  unfold get_chunk_content
  rw [hend]
  unfold pySlice
  have harith : node.lineno + 10 - (node.lineno - 1) = 11 := by omega
  rw [harith]

/-- Claim C8, witness at a node starting on line 2 of a 13-line file
(the span covers lines 2 through 12). -/
theorem claim8_witness :
    get_chunk_content ["a\n", "b\n", "c\n", "d\n", "e\n", "f\n", "g\n", "h\n",
        "i\n", "j\n", "k\n", "l\n", "m\n"]
      { kind := NodeKind.functionDef, name := "g", lineno := 2, end_lineno := none } =
      pyJoin (((["a\n", "b\n", "c\n", "d\n", "e\n", "f\n", "g\n", "h\n",
        "i\n", "j\n", "k\n", "l\n", "m\n"] : List String).drop (2 - 1)).take 11) :=
  claim8_fallback_span _ _ rfl (by decide)

/-- Claim C9: a file whose content is empty or whitespace-only yields zero
chunks from both chunkers. For the structural chunker the file content is
whitespace-only and the parse tree of such a file contains no function or
class declarations (CPython parses whitespace to a bare Module node, which
ast.walk reports as neither FunctionDef nor ClassDef — the hypothesis on
tree_nodes). -/
theorem claim9_empty_content (filepath : String) (source_lines : List String)
    (tree_nodes : List ASTNode) (content : String)
    (hsrc : pyStrip (pyJoin source_lines) = "")
    (hdecl : ∀ node ∈ tree_nodes, node.kind = NodeKind.other)
    (hcontent : pyStrip content = "") :
    process_python_file filepath source_lines (some tree_nodes) = [] ∧
    process_other_file filepath content = [] := by
  constructor
  · have hfm : tree_nodes.filterMap (decl_chunk_of filepath source_lines) = [] := by
      rw [List.filterMap_eq_nil_iff]
      intro node hn
      unfold decl_chunk_of
      rw [hdecl node hn]
    show module_chunks_of filepath (pyJoin source_lines) ++
        tree_nodes.filterMap (decl_chunk_of filepath source_lines) = []
    rw [hfm, List.append_nil]
    unfold module_chunks_of
    rw [if_neg (by simp [hsrc])]
  · unfold process_other_file
    rw [if_neg (by simp [hcontent])]

/-- Claim C9, witness: a whitespace-only Python file and a whitespace-only
text content both yield zero chunks. -/
theorem claim9_witness :
    process_python_file "e.py" [" \n", "\t\n"] (some []) = [] ∧
    process_other_file "notes.md" "\t \n" = [] :=
  claim9_empty_content "e.py" [" \n", "\t\n"] [] "\t \n" (by decide)
    (fun node hn => absurd hn (List.not_mem_nil _)) (by decide)

/-- Claim C10: a non-Python file whose name ends in one of the denylisted
extensions (.txt, .jpg, .png, .bin, .class — line 124 of the source)
contributes zero chunks to directory extraction: the walk result is the
same as if the file were absent, even for readable .txt files. -/
theorem claim10_denylist (walked_before walked_after : List FileEntry) (f : FileEntry)
    (hnotpy : pyEndsWith f.filename ".py" = false)
    (hext : pyEndsWith f.filename ".txt" = true ∨ pyEndsWith f.filename ".jpg" = true ∨
        pyEndsWith f.filename ".png" = true ∨ pyEndsWith f.filename ".bin" = true ∨
        pyEndsWith f.filename ".class" = true) :
    recursively_chunk_directory (walked_before ++ f :: walked_after) =
      recursively_chunk_directory (walked_before ++ walked_after) := by
  have hskip : skippedExt f.filename = true := by
    unfold skippedExt
    rcases hext with h | h | h | h | h <;> simp [h]
  unfold recursively_chunk_directory
  simp only [List.flatMap_append, List.flatMap_cons, hnotpy, hskip,
    Bool.false_eq_true, if_false, not_true, List.nil_append]

/-- Claim C10, witness: a readable, non-empty .txt file alone in the walk
produces the same (empty) chunk set as an empty walk. -/
theorem claim10_witness :
    recursively_chunk_directory
        [{ dirpath := "codebase", filename := "notes.txt",
           source_lines := ["hello world\n"], parse_result := some [] }] =
      recursively_chunk_directory [] :=
  claim10_denylist [] []
    { dirpath := "codebase", filename := "notes.txt",
      source_lines := ["hello world\n"], parse_result := some [] }
    (by decide) (Or.inl (by decide))

/-- Claim C2: a query over an index of n entries with requested size k
returns exactly min(k, n) hits, sorted ascending by cosine distance to the
query vector, and entries with equal embeddings (hence equal distance)
come back in insertion order (strictly increasing row index). The
positivity hypothesis says no indexed embedding is the zero vector, on
which cosine distance is undefined. -/
theorem claim2_query_results (entries : List (List ℚ)) (query_vector : List ℚ)
    (k : Nat) (hpos : ∀ e ∈ entries, 0 < sqnorm e) :
    (kneighbors entries query_vector k).length = min k entries.length ∧
    (kneighbors entries query_vector k).Pairwise
      (fun x y => cosineDistLE query_vector x.2 y.2) ∧
    (kneighbors entries query_vector k).Pairwise
      (fun x y => x.2 = y.2 → x.1 < y.1) := by
  refine ⟨kneighbors_length entries query_vector k, ?_, ?_⟩
  · refine List.Pairwise.imp_of_mem ?_
      (kneighbors_pairwise_rankRel entries query_vector k)
    intro x y hx hy hr
    have hxe := hpos _ (mem_entries_of_mem_kneighbors hx)
    have hye := hpos _ (mem_entries_of_mem_kneighbors hy)
    have hle : distKey query_vector x.2 ≤ distKey query_vector y.2 := by
      rcases hr with h | ⟨h, -⟩
      · exact le_of_lt h
      · exact le_of_eq h
    exact (distKey_le_iff hxe hye).1 hle
  · have hp := (kneighbors_pairwise_rankRel entries query_vector k).and
      (kneighbors_pairwise_ne_fst entries query_vector k)
    refine hp.imp ?_
    rintro x y ⟨hr, hne⟩ heq
    rcases hr with h | ⟨-, hle⟩
    · rw [heq] at h
      exact absurd h (lt_irrefl _)
    · exact lt_of_le_of_ne hle hne

/-- Claim C2, witness on a three-entry index with a duplicated embedding,
requesting two neighbors. -/
theorem claim2_witness :
    (kneighbors [[(0:ℚ), 1], [1, 0], [0, 1]] [0, 1] 2).length =
        min 2 ([[(0:ℚ), 1], [1, 0], [0, 1]] : List (List ℚ)).length ∧
    (kneighbors [[(0:ℚ), 1], [1, 0], [0, 1]] [0, 1] 2).Pairwise
      (fun x y => cosineDistLE [0, 1] x.2 y.2) ∧
    (kneighbors [[(0:ℚ), 1], [1, 0], [0, 1]] [0, 1] 2).Pairwise
      (fun x y => x.2 = y.2 → x.1 < y.1) :=
  claim2_query_results [[(0:ℚ), 1], [1, 0], [0, 1]] [0, 1] 2 (by
    intro e he
    rcases List.mem_cons.1 he with rfl | he
    · norm_num [sqnorm, dot]
    rcases List.mem_cons.1 he with rfl | he
    · norm_num [sqnorm, dot]
    rcases List.mem_cons.1 he with rfl | he
    · norm_num [sqnorm, dot]
    · exact absurd he (List.not_mem_nil _))

/-- Claim C3: a retrieval run over a zero-entry index takes the dedicated
empty-index exit (line 243 of the source) before any search is attempted,
a typed outcome distinct from every other; and no run ever produces an
answered outcome with an empty retrieved list (line 311 guards the
generative call on a non-empty retrieval), so an empty index can never be
mistaken for a successful search with no similar chunks. -/
theorem claim3_empty_index (query_embedding : Option (List ℚ))
    (chat_response : ChatResult) :
    rag_main [] query_embedding chat_response = RagOutcome.emptyIndex ∧
    ∀ (entries : List (Chunk × List ℚ)) (retrieved : List Chunk) (answer : String),
      rag_main entries query_embedding chat_response =
          RagOutcome.answered retrieved answer →
      retrieved ≠ [] := by
  constructor
  · rfl
  · intro entries retrieved answer h
    unfold rag_main at h
    split at h
    · exact absurd h (by simp)
    · cases query_embedding with
      | none => exact absurd h (by simp)
      | some q =>
          simp only at h
          split at h
          · simp at h
          · split at h
            · exact absurd h (by simp)
            · rename_i hre
              obtain ⟨hA, -⟩ := RagOutcome.answered.inj h
              rw [← hA]
              intro hnil
              rw [hnil] at hre
              exact hre rfl

/-- Claim C3, witness: the empty-index exit at a concrete query embedding
and chat response, and a concrete answered run showing its retrieved list
is non-empty. -/
theorem claim3_witness :
    rag_main [] (some [(1:ℚ)]) ChatResult.connFail = RagOutcome.emptyIndex ∧
    ([demo_chunk] : List Chunk) ≠ [] :=
  ⟨(claim3_empty_index (some [(1:ℚ)]) ChatResult.connFail).1,
   (claim3_empty_index (some [(1:ℚ)]) ChatResult.connFail).2
     [(demo_chunk, [1])] [demo_chunk] "Error: Could not connect to Ollama LLM."
     (by norm_num [rag_main, retrievedOf, kneighbors, rankRel, distKey, dot, sqnorm,
       get_ollama_llm_response, List.insertionSort, List.orderedInsert, List.enum,
       List.enumFrom])⟩

/-- Claim C4, counterexample. The claim states that when the generative
call fails (for example the response body lacks the assistant-text field,
modelled by message content none) the orchestrator returns a typed failure
distinct from any answer and never a fabricated answer string. In the code
(lines 190-203) every failure path of get_ollama_llm_response returns an
ordinary String — here the fixed sentinel text — which is
indistinguishable from a verbatim success answer of the same text, and the
orchestration wraps it in the same answered outcome as any success. -/
theorem claim4_counterexample :
    get_ollama_llm_response (ChatResult.ok none) =
        "No valid text response from Ollama LLM." ∧
    get_ollama_llm_response (ChatResult.ok none) =
      get_ollama_llm_response
        (ChatResult.ok (some "No valid text response from Ollama LLM.")) ∧
    rag_main [(demo_chunk, [1])] (some [1]) (ChatResult.ok none) =
      RagOutcome.answered [demo_chunk] "No valid text response from Ollama LLM." := by
  refine ⟨rfl, by decide, ?_⟩
  norm_num [rag_main, retrievedOf, kneighbors, rankRel, distKey, dot, sqnorm,
    get_ollama_llm_response, List.insertionSort, List.orderedInsert, List.enum,
    List.enumFrom]

/-- Claim C4, amended: on success with non-empty content the text is
returned verbatim; when the generative call fails (missing text field,
connection failure, HTTP error) the function returns a fixed sentinel
error string of the same String type as answers — not a typed failure —
and the orchestrator wraps it in an ordinary answered outcome. -/
theorem claim4_amended_sentinel (content : String) (entries : List (Chunk × List ℚ))
    (q : List ℚ) (hc : content ≠ "") (h : entries ≠ []) :
    get_ollama_llm_response (ChatResult.ok (some content)) = content ∧
    get_ollama_llm_response (ChatResult.ok none) =
        "No valid text response from Ollama LLM." ∧
    get_ollama_llm_response ChatResult.connFail =
        "Error: Could not connect to Ollama LLM." ∧
    rag_main entries (some q) (ChatResult.ok none) =
      RagOutcome.answered (retrievedOf entries q (min 10 entries.length))
        "No valid text response from Ollama LLM." := by
  refine ⟨?_, rfl, rfl, ?_⟩
  · show (if content = "" then "No valid text response from Ollama LLM."
      else content) = content
    rw [if_neg hc]
  · exact (rag_main_some_eq h q (ChatResult.ok none)).1

/-- Claim C4, witness for the amended theorem at a concrete answer text and
a concrete one-entry index. -/
theorem claim4_witness :
    get_ollama_llm_response (ChatResult.ok (some "The app loads config first.")) =
        "The app loads config first." ∧
    get_ollama_llm_response (ChatResult.ok none) =
        "No valid text response from Ollama LLM." ∧
    get_ollama_llm_response ChatResult.connFail =
        "Error: Could not connect to Ollama LLM." ∧
    rag_main [(demo_chunk, [1])] (some [1]) (ChatResult.ok none) =
      RagOutcome.answered
        (retrievedOf [(demo_chunk, [1])] [1] (min 10 [(demo_chunk, [(1:ℚ)])].length))
        "No valid text response from Ollama LLM." :=
  claim4_amended_sentinel "The app loads config first." [(demo_chunk, [1])] [1]
    (by decide) (by simp)

/-- Claim C5: when embedding the query fails (the embedding client yields
None), the run ends in the typed queryEmbeddingFailed outcome — carrying
no retrieved chunks and no answer — and the outcome is independent of both
the index contents and the chat endpoint, so no index search and no
generative call influence it and no partial or degraded answer is
produced. -/
theorem claim5_query_embedding_failure (entries entries2 : List (Chunk × List ℚ))
    (chat_response chat_response2 : ChatResult)
    (h : entries ≠ []) (h2 : entries2 ≠ []) :
    rag_main entries none chat_response = RagOutcome.queryEmbeddingFailed ∧
    rag_main entries none chat_response = rag_main entries2 none chat_response2 := by
  have key : ∀ (es : List (Chunk × List ℚ)) (cr : ChatResult), es ≠ [] →
      rag_main es none cr = RagOutcome.queryEmbeddingFailed := by
    intro es cr hne
    unfold rag_main
    rw [isEmpty_false_of_ne_nil hne]
    rfl
  exact ⟨key entries chat_response h,
    (key entries chat_response h).trans (key entries2 chat_response2 h2).symm⟩

/-- Claim C5, witness at two different concrete indexes and chat
responses. -/
theorem claim5_witness :
    rag_main [(demo_chunk, [1])] none (ChatResult.ok (some "hi")) =
        RagOutcome.queryEmbeddingFailed ∧
    rag_main [(demo_chunk, [1])] none (ChatResult.ok (some "hi")) =
      rag_main [(demo_chunk2, [2]), (demo_chunk, [3])] none ChatResult.connFail :=
  claim5_query_embedding_failure [(demo_chunk, [1])]
    [(demo_chunk2, [2]), (demo_chunk, [3])] (ChatResult.ok (some "hi"))
    ChatResult.connFail (by simp) (by simp)

/-- Claim C7: the embedding client returns the vector from the response
when the embedding field is present, and None — without raising — in each
of the three failure cases (connection failure, non-2xx response, missing
vector field); and the enrichment pass drops exactly the chunk whose call
yielded nothing and continues with the remaining chunks unchanged. -/
theorem claim7_embedding_client :
    (∀ (status : Nat) (body : String),
        get_ollama_embedding EmbedResponse.connFail = none ∧
        get_ollama_embedding (EmbedResponse.httpError status body) = none ∧
        get_ollama_embedding (EmbedResponse.ok none) = none) ∧
    (∀ v : List ℚ, get_ollama_embedding (EmbedResponse.ok (some v)) = some v) ∧
    (∀ (items_before items_after : List (Chunk × EmbedResponse)) (c : Chunk)
        (r : EmbedResponse), get_ollama_embedding r = none →
        enrich_chunks (items_before ++ (c, r) :: items_after) =
          enrich_chunks (items_before ++ items_after)) := by
  refine ⟨fun _ _ => ⟨rfl, rfl, rfl⟩, fun _ => rfl, ?_⟩
  intro items_before items_after c r hr
  unfold enrich_chunks
  rw [List.filterMap_append, List.filterMap_append, List.filterMap_cons]
  have hcr : get_ollama_embedding (c, r).2 = none := hr
  rw [hcr]

/-- Claim C7, witness: a connection failure on the first chunk leaves
exactly the remaining successfully embedded chunk. -/
theorem claim7_witness :
    enrich_chunks [(demo_chunk, EmbedResponse.connFail),
        (demo_chunk2, EmbedResponse.ok (some [1]))] =
      enrich_chunks [(demo_chunk2, EmbedResponse.ok (some [1]))] :=
  claim7_embedding_client.2.2 [] [(demo_chunk2, EmbedResponse.ok (some [1]))]
    demo_chunk EmbedResponse.connFail rfl
